import Mathlib

/-!
Shallow embedding of the meeting-agent repository's two scripts,
`scripts/diarize_audio.py` and `scripts/archive/benchmark_diarization.py`.
External effects (torch device probing, the pyannote pipeline, the
filesystem, environment variables, the wall clock and ffprobe) are
modelled as oracle inputs; the wrapper logic itself is translated
statement by statement.  Times are modelled as rationals.
-/

namespace MeetingAgent

/-- The three torch device kinds the scripts can select
(`torch.device("mps" | "cuda" | "cpu")`). -/
inductive DeviceType
  | mps
  | cuda
  | cpu
deriving DecidableEq, Repr

/-- Oracle view of `torch.backends.mps.is_available()` and
`torch.cuda.is_available()`. -/
structure TorchEnv where
  mps_is_available : Bool
  cuda_is_available : Bool
deriving DecidableEq, Repr

/-- Embedding of `get_device` from `scripts/diarize_audio.py` (lines 29-51):
if `use_gpu` is false return CPU; otherwise try MPS, then CUDA, then fall
back to CPU.  The Python function performs only availability queries and
cannot raise; the embedding is a total function. -/
def get_device (env : TorchEnv) (use_gpu : Bool) : DeviceType :=
  if !use_gpu then DeviceType.cpu
  else if env.mps_is_available then DeviceType.mps
  else if env.cuda_is_available then DeviceType.cuda
  else DeviceType.cpu

/-- A pyannote time interval, as yielded by
`diarization.itertracks(yield_label=True)`: the `turn` object with its
`start` and `end` attributes. -/
structure Turn where
  start : ℚ
  «end» : ℚ
deriving DecidableEq, Repr

/-- One item of the pipeline's track enumeration: `(turn, track, speaker)`.
The middle component is bound to `_` by the wrapper and ignored. -/
structure Track where
  turn : Turn
  trackName : String
  speaker : String
deriving DecidableEq, Repr

/-- One output record, `{"start": float, "end": float, "speaker": str}`. -/
structure Segment where
  start : ℚ
  «end» : ℚ
  speaker : String
deriving DecidableEq, Repr

/-- The value returned by `diarize_audio`: `{"segments": [...]}`. -/
structure DiarizationResult where
  segments : List Segment
deriving DecidableEq, Repr

/-- The projection applied inside the loop of `diarize_audio`
(lines 101-105): `{"start": float(turn.start), "end": float(turn.end),
"speaker": speaker}`. -/
def trackSegment (t : Track) : Segment :=
  { start := t.turn.start, «end» := t.turn.«end», speaker := t.speaker }

/-- Embedding of `diarize_audio` from `scripts/diarize_audio.py`
(lines 54-107).  The external work (loading the pipeline, moving it to the
device, running inference, enumerating tracks) is an oracle input:
`Except.error e` if any of those steps raised an exception with message
`e`, `Except.ok tracks` with the track enumeration otherwise.  The wrapper
then builds `segments` by appending one projected record per track, in
iteration order. -/
def diarize_audio (pipelineRun : Except String (List Track)) :
    Except String DiarizationResult :=
  match pipelineRun with
  | Except.error e => Except.error e
  | Except.ok tracks =>
      Except.ok { segments := tracks.foldl (fun segs t => segs ++ [trackSegment t]) [] }

/-- Appending one element per item, starting from `acc`, is `acc` followed
by the map. -/
theorem foldl_append_singleton {α β : Type} (f : α → β) (l : List α) (acc : List β) :
    l.foldl (fun segs t => segs ++ [f t]) acc = acc ++ l.map f := by
  induction l generalizing acc with
  | nil => simp
  | cons h t ih => simp [ih]

/-- C1: `get_device(False)` is CPU unconditionally; `get_device(True)`
returns MPS when available, else CUDA when available, else CPU — a pure
priority list with CPU as the terminal fallback, and the function is total
(never raises). -/
theorem C1_get_device_policy (env : TorchEnv) :
    (get_device env false = DeviceType.cpu) ∧
    (env.mps_is_available = true → get_device env true = DeviceType.mps) ∧
    (env.mps_is_available = false → env.cuda_is_available = true →
        get_device env true = DeviceType.cuda) ∧
    (env.mps_is_available = false → env.cuda_is_available = false →
        get_device env true = DeviceType.cpu) := by
  rcases env with ⟨m, c⟩
  cases m <;> cases c <;> simp [get_device]

/-- Instances of the device policy at concrete capability environments. -/
theorem C1_get_device_policy_witness :
    get_device ⟨true, true⟩ true = DeviceType.mps ∧
    get_device ⟨false, true⟩ true = DeviceType.cuda ∧
    get_device ⟨false, false⟩ true = DeviceType.cpu :=
  ⟨(C1_get_device_policy ⟨true, true⟩).2.1 rfl,
   (C1_get_device_policy ⟨false, true⟩).2.2.1 rfl rfl,
   (C1_get_device_policy ⟨false, false⟩).2.2.2 rfl rfl⟩

/-- A JSON value, the shape of what `json.dumps` is handed. -/
inductive Json
  | num (q : ℚ)
  | str (s : String)
  | arr (xs : List Json)
  | obj (kvs : List (String × Json))

/-- JSON shape of one segment dict, in the insertion order of the source:
start, end, speaker. -/
def segmentToJson (s : Segment) : Json :=
  Json.obj [("start", Json.num s.start), ("end", Json.num s.«end»),
            ("speaker", Json.str s.speaker)]

/-- JSON shape of the value printed by `main`:
`{"segments": [ ... ]}`. -/
def resultToJson (r : DiarizationResult) : Json :=
  Json.obj [("segments", Json.arr (r.segments.map segmentToJson))]

/-- Does a JSON value match the per-segment schema
`{"start": number, "end": number, "speaker": string}`? -/
def segmentJsonOk : Json → Bool
  | Json.obj [("start", Json.num _), ("end", Json.num _), ("speaker", Json.str _)] => true
  | _ => false

/-- Does a JSON value match the output schema
`{"segments": [segment, ...]}` of section 6 of the spec? -/
def schemaOk : Json → Bool
  | Json.obj [("segments", Json.arr xs)] => xs.all segmentJsonOk
  | _ => false

/-- Whatever segments the pipeline produced, the printed JSON value
matches the documented schema. -/
theorem schemaOk_resultToJson (r : DiarizationResult) :
    schemaOk (resultToJson r) = true := by
  simp only [resultToJson, schemaOk, List.all_eq_true]
  intro j hj
  rcases List.mem_map.mp hj with ⟨s, _, rfl⟩
  rfl

/-- One print to standard output.  The CLI has a single stdout call site,
`print(json.dumps(result, indent=2))`; the event records the value handed
to `json.dumps` and the indent argument. -/
inductive StdoutEvent
  | jsonDump (value : Json) (indent : ℕ)

/-- Python truthiness of an optional string: `None` and `""` are falsy. -/
def pyTruthy : Option String → Bool
  | none => false
  | some s => !s.isEmpty

/-- Embedding of Python's `list.index` (index of the first occurrence). -/
def listIndex (x : String) : List String → Option ℕ
  | [] => none
  | a :: as => if a = x then some 0 else (listIndex x as).map (· + 1)

/-- The `--token` flag lookup of `main` (lines 124-128): if `"--token"`
occurs in `sys.argv`, take the argument right after its first occurrence,
if any; otherwise the flag contributes nothing. -/
def flagToken (argv : List String) : Option String :=
  if argv.contains "--token" then
    match listIndex "--token" argv with
    | some i => argv.get? (i + 1)
    | none => none
  else
    none

/-- Token resolution of `main` (lines 123-131): the flag value if truthy,
else the `HUGGINGFACE_TOKEN` environment variable if truthy, else nothing
(which makes `main` report the missing-token error). -/
def resolveToken (argv : List String) (envToken : Option String) : Option String :=
  let hf1 := flagToken argv
  let hf2 := if pyTruthy hf1 then hf1 else envToken
  if pyTruthy hf2 then hf2 else none

/-- Stderr diagnostic of the missing-path branch (line 113). -/
def missingPathMsg : String := "Error: Missing audio file path"

/-- Stderr usage line of the missing-path branch (line 114). -/
def usageMsg (argv : List String) : String :=
  "Usage: " ++ argv.getD 0 "" ++ " <audio_file_path> [--token <hf_token>] [--use-gpu]"

/-- Stderr diagnostic of the nonexistent-path branch (line 121). -/
def fileNotFoundMsg (path : String) : String :=
  "Error: Audio file not found: " ++ path

/-- Stderr diagnostics of the missing-token branch (lines 134-135). -/
def tokenErrorLines : List String :=
  ["Error: Hugging Face token not provided",
   "Either set HUGGINGFACE_TOKEN environment variable or use --token flag"]

/-- Stderr diagnostic of the exception handler (line 148). -/
def diarizationErrorMsg (e : String) : String :=
  "Error during diarization: " ++ e

/-- The positional audio path, `sys.argv[1]` (only read once the length
check has passed). -/
def argvPath (argv : List String) : String := argv.getD 1 ""

/-- The GPU flag of `main` (line 140): `"--no-gpu" not in sys.argv`. -/
def useGpuFlag (argv : List String) : Bool := !argv.contains "--no-gpu"

/-- Oracle inputs of one invocation of the diarization CLI: the argument
vector (program name included), the filesystem's answer to
`os.path.exists`, the `HUGGINGFACE_TOKEN` environment variable, and the
behaviour of the external pipeline as a function of audio path, token and
GPU flag. -/
structure MainWorld where
  argv : List String
  fileExists : String → Bool
  envToken : Option String
  pipeline : String → String → Bool → Except String (List Track)

/-- Observable outcome of one invocation of the diarization CLI: the exit
code, the stdout trace, the stderr diagnostic lines printed by `main`
itself (the `[PROGRESS]` lines of `diarize_audio` also go to stderr and
are not part of this trace), and whether the external pipeline was
invoked. -/
structure MainResult where
  exitCode : ℕ
  stdout : List StdoutEvent
  stderr : List String
  pipelineCalled : Bool

/-- Embedding of `main` from `scripts/diarize_audio.py` (lines 110-151):
argument-count check, existence check, token resolution, then the guarded
call to `diarize_audio` whose success prints exactly one
`json.dumps(result, indent=2)` to stdout and whose failure prints a
diagnostic to stderr and exits 1. -/
def main (w : MainWorld) : MainResult :=
  if w.argv.length < 2 then
    { exitCode := 1, stdout := [],
      stderr := [missingPathMsg, usageMsg w.argv], pipelineCalled := false }
  else
    let audio_path := argvPath w.argv
    if !w.fileExists audio_path then
      { exitCode := 1, stdout := [],
        stderr := [fileNotFoundMsg audio_path], pipelineCalled := false }
    else
      match resolveToken w.argv w.envToken with
      | none =>
          { exitCode := 1, stdout := [],
            stderr := tokenErrorLines, pipelineCalled := false }
      | some hf_token =>
          let use_gpu := useGpuFlag w.argv
          match diarize_audio (w.pipeline audio_path hf_token use_gpu) with
          | Except.ok result =>
              { exitCode := 0,
                stdout := [StdoutEvent.jsonDump (resultToJson result) 2],
                stderr := [], pipelineCalled := true }
          | Except.error e =>
              { exitCode := 1, stdout := [],
                stderr := [diarizationErrorMsg e], pipelineCalled := true }

/-- C2: every invocation of the diarization CLI either exits 0 with stdout
holding exactly one `json.dumps(result, indent=2)` payload whose value
matches the `{"segments": [{start, end, speaker}, ...]}` schema, or exits
1 with an empty stdout; all progress and error text is on stderr. -/
theorem C2_cli_output_dichotomy (w : MainWorld) :
    ((main w).exitCode = 0 ∧
        ∃ r, (main w).stdout = [StdoutEvent.jsonDump (resultToJson r) 2] ∧
          schemaOk (resultToJson r) = true) ∨
    ((main w).exitCode = 1 ∧ (main w).stdout = []) := by
  by_cases h1 : w.argv.length < 2
  · exact Or.inr (by simp [main, h1])
  · by_cases h2 : w.fileExists (argvPath w.argv) = true
    · cases htok : resolveToken w.argv w.envToken with
      | none => exact Or.inr (by simp [main, h1, h2, htok])
      | some tok =>
          cases hrun : diarize_audio
              (w.pipeline (argvPath w.argv) tok (useGpuFlag w.argv)) with
          | ok r =>
              refine Or.inl ⟨?_, r, ?_, schemaOk_resultToJson r⟩ <;>
                simp [main, h1, h2, htok, hrun]
          | error e => exact Or.inr (by simp [main, h1, h2, htok, hrun])
    · exact Or.inr (by simp [main, h1, h2])

/-- C3: on a successful pipeline run the returned segments are exactly the
per-track projections, one per track, in the pipeline's iteration order —
no reordering, no deduplication, no merging of adjacent same-speaker
segments; in particular the count of segments equals the count of
tracks. -/
theorem C3_segments_projection (tracks : List Track) :
    diarize_audio (Except.ok tracks) =
      Except.ok { segments := tracks.map trackSegment } ∧
    (tracks.map trackSegment).length = tracks.length := by
  constructor
  · simp [diarize_audio, foldl_append_singleton]
  · simp

/-- C4 counterexample: the wrapper copies pipeline turns verbatim, so a
pipeline turn with `start = 2 > 1 = end` yields a result segment violating
`start <= end`; the claimed invariant is not enforced by the code. -/
theorem C4_counterexample :
    diarize_audio (Except.ok
        [{ turn := { start := 2, «end» := 1 }, trackName := "A",
           speaker := "SPEAKER_00" }]) =
      Except.ok { segments := [{ start := 2, «end» := 1, speaker := "SPEAKER_00" }] } ∧
    ¬ ((2 : ℚ) ≤ (1 : ℚ)) :=
  ⟨rfl, by norm_num⟩

/-- C4 amended: each result segment is a verbatim projection of a
pipeline turn, so whenever every pipeline turn satisfies
`0 <= start <= end`, every segment of the result satisfies
`0 <= start`, `start <= end` and `0 <= end`; the wrapper itself adds no
validation. -/
theorem C4_segment_bounds (tracks : List Track)
    (h : ∀ t ∈ tracks, 0 ≤ t.turn.start ∧ t.turn.start ≤ t.turn.«end») :
    ∀ r, diarize_audio (Except.ok tracks) = Except.ok r →
      ∀ s ∈ r.segments, 0 ≤ s.start ∧ s.start ≤ s.«end» ∧ 0 ≤ s.«end» := by
  intro r hr s hs
  simp only [diarize_audio, foldl_append_singleton, List.nil_append,
    Except.ok.injEq] at hr
  subst hr
  rcases List.mem_map.mp hs with ⟨t, ht, rfl⟩
  obtain ⟨h0, hle⟩ := h t ht
  exact ⟨h0, hle, le_trans h0 hle⟩

/-- The amended segment-bounds theorem at a concrete well-formed pipeline
run. -/
theorem C4_segment_bounds_witness :
    0 ≤ (Segment.mk 0 1 "SPEAKER_00").start ∧
    (Segment.mk 0 1 "SPEAKER_00").start ≤ (Segment.mk 0 1 "SPEAKER_00").«end» ∧
    0 ≤ (Segment.mk 0 1 "SPEAKER_00").«end» :=
  C4_segment_bounds [⟨⟨0, 1⟩, "A", "SPEAKER_00"⟩]
    (by
      intro t ht
      rw [List.mem_singleton] at ht
      subst ht
      exact ⟨by norm_num, by norm_num⟩)
    ⟨[⟨0, 1, "SPEAKER_00"⟩]⟩ rfl ⟨0, 1, "SPEAKER_00"⟩ (List.mem_singleton.mpr rfl)

/-- C5: the CLI validates before any external call — a short argument
vector, a nonexistent audio path, and an unresolvable token each exit 1
with the corresponding stderr diagnostic, an empty stdout and the pipeline
never invoked; a truthy `--token` value takes precedence over the
environment variable, and the not-found diagnostic contains the path. -/
theorem C5_cli_validation (w : MainWorld) :
    (w.argv.length < 2 →
        main w = { exitCode := 1, stdout := [],
                   stderr := [missingPathMsg, usageMsg w.argv],
                   pipelineCalled := false }) ∧
    (2 ≤ w.argv.length → w.fileExists (argvPath w.argv) = false →
        main w = { exitCode := 1, stdout := [],
                   stderr := [fileNotFoundMsg (argvPath w.argv)],
                   pipelineCalled := false }) ∧
    (2 ≤ w.argv.length → w.fileExists (argvPath w.argv) = true →
        resolveToken w.argv w.envToken = none →
        main w = { exitCode := 1, stdout := [],
                   stderr := tokenErrorLines, pipelineCalled := false }) ∧
    (∀ s, flagToken w.argv = some s → s ≠ "" →
        resolveToken w.argv w.envToken = some s) ∧
    (∃ pre post, fileNotFoundMsg (argvPath w.argv) = pre ++ (argvPath w.argv) ++ post) := by
  refine ⟨?_, ?_, ?_, ?_, ?_⟩
  · intro h1
    simp [main, h1]
  · intro h1 h2
    have h1' : ¬ w.argv.length < 2 := by omega
    simp [main, h1', h2]
  · intro h1 h2 htok
    have h1' : ¬ w.argv.length < 2 := by omega
    simp [main, h1', h2, htok]
  · intro s hs hne
    have hne' : s.isEmpty = false := by
      rcases hb : s.isEmpty with _ | _
      · rfl
      · exact absurd ((String.isEmpty_iff s).mp hb) hne
    simp [resolveToken, hs, pyTruthy, hne']
  · exact ⟨"Error: Audio file not found: ", "", by simp [fileNotFoundMsg]⟩

/-- The three validation failures of the CLI at concrete worlds. -/
theorem C5_cli_validation_witness :
    main ⟨["prog"], fun _ => true, none, fun _ _ _ => Except.error "e"⟩ =
      { exitCode := 1, stdout := [], stderr := [missingPathMsg, usageMsg ["prog"]],
        pipelineCalled := false } ∧
    main ⟨["prog", "a.wav"], fun _ => false, none, fun _ _ _ => Except.error "e"⟩ =
      { exitCode := 1, stdout := [], stderr := [fileNotFoundMsg "a.wav"],
        pipelineCalled := false } ∧
    main ⟨["prog", "a.wav"], fun _ => true, none, fun _ _ _ => Except.error "e"⟩ =
      { exitCode := 1, stdout := [], stderr := tokenErrorLines,
        pipelineCalled := false } :=
  ⟨(C5_cli_validation _).1 (by norm_num),
   (C5_cli_validation _).2.1 (by norm_num) rfl,
   (C5_cli_validation _).2.2.1 (by norm_num) rfl rfl⟩

/-- `list.index` finds the first occurrence: on `pre ++ x :: rest` with
`x` not in `pre` it answers `pre.length`. -/
theorem listIndex_append_not_mem (x : String) (pre rest : List String)
    (h : x ∉ pre) : listIndex x (pre ++ x :: rest) = some pre.length := by
  induction pre with
  | nil => simp [listIndex]
  | cons a as ih =>
      have ha : ¬ a = x := fun hax => h (by simp [hax])
      have h' : x ∉ as := fun hx => h (List.mem_cons_of_mem _ hx)
      simp [listIndex, ha, ih h']

/-- Reading one past a flag that has a following value yields that
value. -/
theorem get?_after_flag (pre : List String) (x v : String) (post : List String) :
    (pre ++ x :: v :: post).get? (pre.length + 1) = some v := by
  induction pre with
  | nil => rfl
  | cons a as ih => exact ih

/-- Reading one past a flag that is the final argument yields nothing. -/
theorem get?_after_final_flag (pre : List String) (x : String) :
    (pre ++ [x]).get? (pre.length + 1) = none := by
  induction pre with
  | nil => rfl
  | cons a as ih => exact ih

/-- An argument vector containing the flag passes the `in` test. -/
theorem contains_append_cons (pre rest : List String) (x : String) :
    (pre ++ x :: rest).contains x = true := by
  simp

/-- A trailing `--token` with no value contributes no flag token. -/
theorem flagToken_flag_last (pre : List String) (h : "--token" ∉ pre) :
    flagToken (pre ++ ["--token"]) = none := by
  unfold flagToken
  rw [if_pos (contains_append_cons pre [] "--token"),
      listIndex_append_not_mem "--token" pre [] h]
  exact get?_after_final_flag pre "--token"

/-- A `--token` followed by a value contributes exactly that value. -/
theorem flagToken_flag_value (pre post : List String) (v : String)
    (h : "--token" ∉ pre) :
    flagToken (pre ++ "--token" :: v :: post) = some v := by
  unfold flagToken
  rw [if_pos (contains_append_cons pre (v :: post) "--token"),
      listIndex_append_not_mem "--token" pre (v :: post) h]
  exact get?_after_flag pre "--token" v post

/-- C10: a trailing `--token` with no value, and a `--token` whose value is
the empty string, both fall back silently to the `HUGGINGFACE_TOKEN`
environment variable (no usage error is issued for the malformed flag);
the missing-token error arises exactly when the flag token is falsy and
the environment variable is unset or empty. -/
theorem C10_token_fallback (pre post : List String) (env : Option String)
    (hpre : "--token" ∉ pre) :
    flagToken (pre ++ ["--token"]) = none ∧
    flagToken (pre ++ "--token" :: "" :: post) = some "" ∧
    resolveToken (pre ++ ["--token"]) env = (if pyTruthy env then env else none) ∧
    resolveToken (pre ++ "--token" :: "" :: post) env =
      (if pyTruthy env then env else none) ∧
    (∀ argv, resolveToken argv env = none ↔
        (pyTruthy (flagToken argv) = false ∧ pyTruthy env = false)) ∧
    (∀ w : MainWorld, w.argv = pre ++ ["--token"] → 2 ≤ w.argv.length →
        w.fileExists (argvPath w.argv) = true → w.envToken = env →
        pyTruthy env = true → (main w).pipelineCalled = true) := by
  have hempty : pyTruthy (some "") = false := rfl
  refine ⟨flagToken_flag_last pre hpre, flagToken_flag_value pre post "" hpre,
          ?_, ?_, ?_, ?_⟩
  · simp [resolveToken, flagToken_flag_last pre hpre, pyTruthy]
  · simp [resolveToken, flagToken_flag_value pre post "" hpre, hempty]
  · intro argv
    rcases hf : flagToken argv with _ | s
    · rcases env with _ | e
      · simp [resolveToken, hf, pyTruthy]
      · rcases he : e.isEmpty with _ | _ <;>
          simp [resolveToken, hf, pyTruthy, he]
    · rcases hs : s.isEmpty with _ | _
      · simp [resolveToken, hf, pyTruthy, hs]
      · rcases env with _ | e
        · simp [resolveToken, hf, pyTruthy, hs]
        · rcases he : e.isEmpty with _ | _ <;>
            simp [resolveToken, hf, pyTruthy, hs, he]
  · intro w hw hlen hfile henv htruthy
    have h1' : ¬ w.argv.length < 2 := by omega
    have h3 : resolveToken (pre ++ ["--token"]) env =
        (if pyTruthy env then env else none) := by
      simp [resolveToken, flagToken_flag_last pre hpre, pyTruthy]
    have htok : resolveToken w.argv w.envToken = env := by
      rw [hw, henv, h3, if_pos htruthy]
    rcases env with _ | e
    · exact absurd htruthy (by simp [pyTruthy])
    · cases hrun : diarize_audio (w.pipeline (argvPath w.argv) e (useGpuFlag w.argv)) <;>
        simp [main, h1', hfile, htok, hrun]

/-- Token fallback at concrete argument vectors: a trailing `--token`
with a set environment variable resolves to the environment token; a
`--token ""` with no environment variable resolves to nothing. -/
theorem C10_token_fallback_witness :
    resolveToken ["prog", "a.wav", "--token"] (some "envtok") = some "envtok" ∧
    resolveToken ["prog", "a.wav", "--token", ""] none = none := by
  constructor
  · have h := (C10_token_fallback ["prog", "a.wav"] [] (some "envtok")
      (by decide)).2.2.1
    simpa using h
  · have h := (C10_token_fallback ["prog", "a.wav"] [] none (by decide)).2.2.2.1
    simpa using h

/-- `results['cpu']` of the benchmark driver: on success
`{'time': ..., 'segments': ..., 'success': True}`, on failure
`{'success': False, 'error': str(e)}`. -/
inductive CpuRecord
  | ok (time : ℚ) (segments : ℕ)
  | failed (error : String)
deriving DecidableEq, Repr

/-- `results['gpu']` of the benchmark driver: on success
`{'time', 'segments', 'success': True, 'device'}`, on an exception
`{'success': False, 'error'}`, and when no GPU is available
`{'success': False, 'reason'}`. -/
inductive GpuRecord
  | ok (time : ℚ) (segments : ℕ) (device : String)
  | failed (error : String)
  | skipped (reason : String)
deriving DecidableEq, Repr

/-- The `success` field of the CPU record. -/
def cpuSuccessFlag : CpuRecord → Bool
  | CpuRecord.ok _ _ => true
  | CpuRecord.failed _ => false

/-- The `success` field of the GPU record (false both on failure and when
the GPU test was skipped). -/
def gpuSuccessFlag : GpuRecord → Bool
  | GpuRecord.ok _ _ _ => true
  | GpuRecord.failed _ => false
  | GpuRecord.skipped _ => false

/-- The qualitative speedup tiers of the interpretation block
(benchmark_diarization.py lines 146-154). -/
inductive Tier
  | excellent
  | good
  | moderate
  | minimal
deriving DecidableEq, Repr

/-- The if/elif chain of the interpretation block: `speedup >= 5`
excellent, `>= 3` good, `>= 1.5` moderate, else minimal. -/
def tierOf (speedup : ℚ) : Tier :=
  if 5 ≤ speedup then Tier.excellent
  else if 3 ≤ speedup then Tier.good
  else if 3 / 2 ≤ speedup then Tier.moderate
  else Tier.minimal

/-- The informative console prints of `benchmark_diarization`, in program
order (decorative separators and ratio lines are not modelled). -/
inductive BenchEvent
  | audioDuration (d : Option ℚ)
  | availableDevices (names : List String)
  | cpuTestOk (time : ℚ) (segments : ℕ)
  | cpuTestFailed (err : String)
  | gpuSkipped
  | gpuTestOk (time : ℚ) (segments : ℕ) (device : String)
  | gpuTestFailed (err : String)
  | summaryBoth (cpuTime gpuTime speedup timeSaved : ℚ) (device : String)
  | tier (t : Tier) (speedup : ℚ)
  | practicalImpact (duration timeSaved : ℚ)
  | summaryCpuOnly (time : ℚ)
  | summaryFailed
deriving DecidableEq, Repr

/-- Oracle inputs of one `benchmark_diarization` call: the ffprobe
duration (none when probing failed), the torch capability environment,
`torch.cuda.get_device_name(0)`, and for each of the two sequential
`diarize_audio` invocations its pipeline outcome and measured wall-clock
elapsed time.  Measured elapsed times of completed runs are positive in
reality; the fields are unconstrained and theorems add positivity where
the code divides by them. -/
structure BenchWorld where
  duration : Option ℚ
  env : TorchEnv
  cudaName : String
  cpuRun : Except String (List Track)
  cpuTime : ℚ
  gpuRun : Except String (List Track)
  gpuTime : ℚ

/-- The `devices_available` list printed at the top of the benchmark
(lines 57-63). -/
def devicesAvailable (env : TorchEnv) (cudaName : String) : List String :=
  (if env.mps_is_available then ["Metal GPU (MPS)"] else []) ++
  (if env.cuda_is_available then ["CUDA GPU (" ++ cudaName ++ ")"] else []) ++
  ["CPU"]

/-- The per-test device label of the GPU test (line 99). -/
def gpuDeviceName (d : DeviceType) : String :=
  if d = DeviceType.mps then "Metal GPU" else "CUDA GPU"

/-- `results['cpu']` as assembled by TEST 1 (lines 70-88): the try block
around `diarize_audio(..., use_gpu=False)` records success with elapsed
time and segment count, or records the exception message. -/
def cpuRecordOf (w : BenchWorld) : CpuRecord :=
  match diarize_audio w.cpuRun with
  | Except.ok r => CpuRecord.ok w.cpuTime r.segments.length
  | Except.error e => CpuRecord.failed e

/-- The prints of TEST 1. -/
def cpuEventsOf (w : BenchWorld) : List BenchEvent :=
  match diarize_audio w.cpuRun with
  | Except.ok r => [BenchEvent.cpuTestOk w.cpuTime r.segments.length]
  | Except.error e => [BenchEvent.cpuTestFailed e]

/-- `results['gpu']` as assembled by TEST 2 (lines 90-118): skipped when
`get_device(use_gpu=True)` is CPU, otherwise the try block around
`diarize_audio(..., use_gpu=True)` records success or the exception. -/
def gpuRecordOf (w : BenchWorld) : GpuRecord :=
  if get_device w.env true = DeviceType.cpu then
    GpuRecord.skipped "No GPU available"
  else
    match diarize_audio w.gpuRun with
    | Except.ok r =>
        GpuRecord.ok w.gpuTime r.segments.length
          (gpuDeviceName (get_device w.env true))
    | Except.error e => GpuRecord.failed e

/-- The prints of TEST 2. -/
def gpuEventsOf (w : BenchWorld) : List BenchEvent :=
  if get_device w.env true = DeviceType.cpu then
    [BenchEvent.gpuSkipped]
  else
    match diarize_audio w.gpuRun with
    | Except.ok r =>
        [BenchEvent.gpuTestOk w.gpuTime r.segments.length
          (gpuDeviceName (get_device w.env true))]
    | Except.error e => [BenchEvent.gpuTestFailed e]

/-- The BENCHMARK RESULTS block (lines 120-167): if both runs succeeded,
print times, speedup and tier, plus the practical-impact extrapolation
when `duration and duration >= 300` (Python truthiness: a known duration
of 0 is falsy, subsumed here by `300 <= d`); else if the CPU run
succeeded, print its time alone with "GPU: Not tested"; else print the
overall-failure line. -/
def summaryEvents (cpu : CpuRecord) (gpu : GpuRecord) (duration : Option ℚ) :
    List BenchEvent :=
  match cpu, gpu with
  | CpuRecord.ok cpu_time _, GpuRecord.ok gpu_time _ device =>
      let speedup := cpu_time / gpu_time
      let time_saved := cpu_time - gpu_time
      [BenchEvent.summaryBoth cpu_time gpu_time speedup time_saved device,
       BenchEvent.tier (tierOf speedup) speedup] ++
      (match duration with
       | some d =>
           if d ≠ 0 ∧ 300 ≤ d then [BenchEvent.practicalImpact d time_saved]
           else []
       | none => [])
  | CpuRecord.ok cpu_time _, _ => [BenchEvent.summaryCpuOnly cpu_time]
  | CpuRecord.failed _, _ => [BenchEvent.summaryFailed]

/-- The whole observable outcome of one `benchmark_diarization` call. -/
structure BenchRun where
  events : List BenchEvent
  cpu : CpuRecord
  gpu : GpuRecord

/-- Embedding of `benchmark_diarization` from
`scripts/archive/benchmark_diarization.py` (lines 27-171): header,
device inventory, the two independently guarded runs, then the summary
computed from the records.  Total: every pipeline exception is absorbed
into its own run's record. -/
def benchmark_diarization (w : BenchWorld) : BenchRun :=
  { events := [BenchEvent.audioDuration w.duration,
               BenchEvent.availableDevices (devicesAvailable w.env w.cudaName)]
        ++ cpuEventsOf w ++ gpuEventsOf w
        ++ summaryEvents (cpuRecordOf w) (gpuRecordOf w) w.duration,
    cpu := cpuRecordOf w,
    gpu := gpuRecordOf w }

/-- Stderr lines of the benchmark's missing-argument branch
(lines 176-181). -/
def benchUsageLines (argv : List String) : List String :=
  ["Error: Missing audio file path",
   "Usage: " ++ argv.getD 0 "" ++ " <audio_file_path>",
   "Example:",
   "  " ++ argv.getD 0 "" ++ " ~/path/to/recording.wav"]

/-- Stderr lines of the benchmark's missing-token branch
(lines 192-194). -/
def benchTokenErrorLines : List String :=
  ["Error: HUGGINGFACE_TOKEN environment variable not set",
   "Set it with: export HUGGINGFACE_TOKEN=hf_xxx"]

/-- Oracle inputs of one invocation of the benchmark entry point. -/
structure BenchMainWorld where
  argv : List String
  fileExists : String → Bool
  envToken : Option String
  world : BenchWorld

/-- Observable outcome of one invocation of the benchmark entry point. -/
structure BenchMainResult where
  exitCode : ℕ
  events : List BenchEvent
  stderr : List String

/-- Embedding of `main` from
`scripts/archive/benchmark_diarization.py` (lines 174-208): argument and
existence checks, environment-only token lookup, then
`benchmark_diarization`, which is total in this model, so the
happy path exits 0 (keyboard interrupts and other asynchronous failures
are outside the model). -/
def benchmark_main (bw : BenchMainWorld) : BenchMainResult :=
  if bw.argv.length < 2 then
    { exitCode := 1, events := [], stderr := benchUsageLines bw.argv }
  else
    let audio_path := argvPath bw.argv
    if !bw.fileExists audio_path then
      { exitCode := 1, events := [], stderr := [fileNotFoundMsg audio_path] }
    else if !pyTruthy bw.envToken then
      { exitCode := 1, events := [], stderr := benchTokenErrorLines }
    else
      { exitCode := 0, events := (benchmark_diarization bw.world).events,
        stderr := [] }

/-- The events of `benchmark_diarization` are the two header events, the
TEST 1 prints, the TEST 2 prints and the summary prints, in order. -/
theorem mem_bench_events (w : BenchWorld) (x : BenchEvent) :
    x ∈ (benchmark_diarization w).events ↔
      x = BenchEvent.audioDuration w.duration ∨
      x = BenchEvent.availableDevices (devicesAvailable w.env w.cudaName) ∨
      x ∈ cpuEventsOf w ∨ x ∈ gpuEventsOf w ∨
      x ∈ summaryEvents (cpuRecordOf w) (gpuRecordOf w) w.duration := by
  simp [benchmark_diarization, or_assoc]

/-- The interpretation tier is never printed by TEST 1. -/
theorem tier_not_mem_cpuEvents (w : BenchWorld) (t : Tier) (s : ℚ) :
    BenchEvent.tier t s ∉ cpuEventsOf w := by
  cases h : diarize_audio w.cpuRun <;> simp [cpuEventsOf, h]

/-- The interpretation tier is never printed by TEST 2. -/
theorem tier_not_mem_gpuEvents (w : BenchWorld) (t : Tier) (s : ℚ) :
    BenchEvent.tier t s ∉ gpuEventsOf w := by
  by_cases hd : get_device w.env true = DeviceType.cpu
  · simp [gpuEventsOf, hd]
  · cases h : diarize_audio w.gpuRun <;> simp [gpuEventsOf, hd, h]

/-- The practical-impact extrapolation is never printed by TEST 1. -/
theorem practicalImpact_not_mem_cpuEvents (w : BenchWorld) (d ts : ℚ) :
    BenchEvent.practicalImpact d ts ∉ cpuEventsOf w := by
  cases h : diarize_audio w.cpuRun <;> simp [cpuEventsOf, h]

/-- The practical-impact extrapolation is never printed by TEST 2. -/
theorem practicalImpact_not_mem_gpuEvents (w : BenchWorld) (d ts : ℚ) :
    BenchEvent.practicalImpact d ts ∉ gpuEventsOf w := by
  by_cases hd : get_device w.env true = DeviceType.cpu
  · simp [gpuEventsOf, hd]
  · cases h : diarize_audio w.gpuRun <;> simp [gpuEventsOf, hd, h]

/-- A tier line in the summary forces both success flags. -/
theorem tier_mem_summary_flags (cpu : CpuRecord) (gpu : GpuRecord)
    (dur : Option ℚ) (t : Tier) (s : ℚ)
    (h : BenchEvent.tier t s ∈ summaryEvents cpu gpu dur) :
    cpuSuccessFlag cpu = true ∧ gpuSuccessFlag gpu = true := by
  cases cpu with
  | failed e => cases gpu <;> simp [summaryEvents] at h
  | ok ct n =>
      cases gpu with
      | ok gt m dev => exact ⟨rfl, rfl⟩
      | failed e => simp [summaryEvents] at h
      | skipped r => simp [summaryEvents] at h

/-- When both runs succeed the summary prints the times with the speedup
`cpu_time / gpu_time` and its tier. -/
theorem summary_of_both_ok (ct : ℚ) (n : ℕ) (gt : ℚ) (m : ℕ) (dev : String)
    (dur : Option ℚ) :
    BenchEvent.summaryBoth ct gt (ct / gt) (ct - gt) dev ∈
        summaryEvents (CpuRecord.ok ct n) (GpuRecord.ok gt m dev) dur ∧
    BenchEvent.tier (tierOf (ct / gt)) (ct / gt) ∈
        summaryEvents (CpuRecord.ok ct n) (GpuRecord.ok gt m dev) dur := by
  constructor <;> simp [summaryEvents]

/-- A practical-impact line in the summary forces both success flags and a
known duration of at least 300 seconds. -/
theorem practicalImpact_mem_summary (cpu : CpuRecord) (gpu : GpuRecord)
    (dur : Option ℚ) (d ts : ℚ)
    (h : BenchEvent.practicalImpact d ts ∈ summaryEvents cpu gpu dur) :
    cpuSuccessFlag cpu = true ∧ gpuSuccessFlag gpu = true ∧
      dur = some d ∧ 300 ≤ d := by
  cases cpu with
  | failed e => cases gpu <;> simp [summaryEvents] at h
  | ok ct n =>
      cases gpu with
      | failed e => simp [summaryEvents] at h
      | skipped r => simp [summaryEvents] at h
      | ok gt m dev =>
          rcases dur with _ | d'
          · simp [summaryEvents] at h
          · by_cases hc : (d' : ℚ) ≠ 0 ∧ 300 ≤ d'
            · simp [summaryEvents, hc] at h
              rcases h with ⟨rfl, rfl⟩
              exact ⟨rfl, rfl, rfl, hc.2⟩
            · simp [summaryEvents, hc] at h

/-- With both runs succeeding and a known duration of at least 300
seconds, the summary prints the practical-impact extrapolation. -/
theorem practicalImpact_mem_of_both_ok (ct : ℚ) (n : ℕ) (gt : ℚ) (m : ℕ)
    (dev : String) (d : ℚ) (h300 : 300 ≤ d) :
    BenchEvent.practicalImpact d (ct - gt) ∈
      summaryEvents (CpuRecord.ok ct n) (GpuRecord.ok gt m dev) (some d) := by
  have hne : (d : ℚ) ≠ 0 := ne_of_gt (by linarith)
  simp [summaryEvents, hne, h300]

/-- The if/elif chain of the interpretation block realizes exactly the
four half-open speedup ranges. -/
theorem tier_thresholds (s : ℚ) :
    (tierOf s = Tier.excellent ↔ 5 ≤ s) ∧
    (tierOf s = Tier.good ↔ 3 ≤ s ∧ s < 5) ∧
    (tierOf s = Tier.moderate ↔ 3 / 2 ≤ s ∧ s < 3) ∧
    (tierOf s = Tier.minimal ↔ s < 3 / 2) := by
  unfold tierOf
  split_ifs with h1 h2 h3 <;>
    refine ⟨?_, ?_, ?_, ?_⟩ <;>
      simp [not_and, not_lt] <;>
        (try constructor) <;> intros <;> linarith

/-- C6: the benchmark report prints a speedup tier exactly when both the
CPU run and the GPU run succeeded, in which case it prints the times with
speedup `cpu_time / gpu_time` and the tier of that speedup; the tiers
realize the ranges excellent (>= 5), good ([3, 5)), moderate ([1.5, 3)),
minimal (< 1.5); and the practical-impact extrapolation for 20 runs per
month is printed exactly when, additionally, the probed duration is known
and at least 300 seconds.  The positivity hypothesis restricts to the
physically reachable elapsed times (a zero denominator would raise
`ZeroDivisionError` in the source instead of printing). -/
theorem C6_benchmark_report (w : BenchWorld) (_hgt : 0 < w.gpuTime) :
    ((∃ t s, BenchEvent.tier t s ∈ (benchmark_diarization w).events) ↔
        (cpuSuccessFlag (cpuRecordOf w) = true ∧
         gpuSuccessFlag (gpuRecordOf w) = true)) ∧
    (∀ ct n gt m dev, cpuRecordOf w = CpuRecord.ok ct n →
        gpuRecordOf w = GpuRecord.ok gt m dev →
        BenchEvent.summaryBoth ct gt (ct / gt) (ct - gt) dev ∈
            (benchmark_diarization w).events ∧
        BenchEvent.tier (tierOf (ct / gt)) (ct / gt) ∈
            (benchmark_diarization w).events) ∧
    ((∃ d ts, BenchEvent.practicalImpact d ts ∈ (benchmark_diarization w).events) ↔
        (cpuSuccessFlag (cpuRecordOf w) = true ∧
         gpuSuccessFlag (gpuRecordOf w) = true ∧
         ∃ d, w.duration = some d ∧ 300 ≤ d)) ∧
    (∀ s : ℚ, (tierOf s = Tier.excellent ↔ 5 ≤ s) ∧
        (tierOf s = Tier.good ↔ 3 ≤ s ∧ s < 5) ∧
        (tierOf s = Tier.moderate ↔ 3 / 2 ≤ s ∧ s < 3) ∧
        (tierOf s = Tier.minimal ↔ s < 3 / 2)) := by
  refine ⟨?_, ?_, ?_, fun s => tier_thresholds s⟩
  · constructor
    · rintro ⟨t, s, hmem⟩
      rw [mem_bench_events] at hmem
      rcases hmem with h | h | h | h | h
      · exact absurd h (by simp)
      · exact absurd h (by simp)
      · exact absurd h (tier_not_mem_cpuEvents w t s)
      · exact absurd h (tier_not_mem_gpuEvents w t s)
      · exact tier_mem_summary_flags _ _ _ _ _ h
    · rintro ⟨hc, hg⟩
      cases hcr : cpuRecordOf w with
      | failed e => rw [hcr] at hc; simp [cpuSuccessFlag] at hc
      | ok ct n =>
          cases hgr : gpuRecordOf w with
          | failed e => rw [hgr] at hg; simp [gpuSuccessFlag] at hg
          | skipped r => rw [hgr] at hg; simp [gpuSuccessFlag] at hg
          | ok gt m dev =>
              refine ⟨tierOf (ct / gt), ct / gt, ?_⟩
              rw [mem_bench_events, hcr, hgr]
              exact Or.inr (Or.inr (Or.inr (Or.inr
                (summary_of_both_ok ct n gt m dev w.duration).2)))
  · intro ct n gt m dev hcr hgr
    constructor
    · rw [mem_bench_events, hcr, hgr]
      exact Or.inr (Or.inr (Or.inr (Or.inr
        (summary_of_both_ok ct n gt m dev w.duration).1)))
    · rw [mem_bench_events, hcr, hgr]
      exact Or.inr (Or.inr (Or.inr (Or.inr
        (summary_of_both_ok ct n gt m dev w.duration).2)))
  · constructor
    · rintro ⟨d, ts, hmem⟩
      rw [mem_bench_events] at hmem
      rcases hmem with h | h | h | h | h
      · exact absurd h (by simp)
      · exact absurd h (by simp)
      · exact absurd h (practicalImpact_not_mem_cpuEvents w d ts)
      · exact absurd h (practicalImpact_not_mem_gpuEvents w d ts)
      · obtain ⟨h1, h2, h3, h4⟩ := practicalImpact_mem_summary _ _ _ _ _ h
        exact ⟨h1, h2, d, h3, h4⟩
    · rintro ⟨hc, hg, d, hdur, h300⟩
      cases hcr : cpuRecordOf w with
      | failed e => rw [hcr] at hc; simp [cpuSuccessFlag] at hc
      | ok ct n =>
          cases hgr : gpuRecordOf w with
          | failed e => rw [hgr] at hg; simp [gpuSuccessFlag] at hg
          | skipped r => rw [hgr] at hg; simp [gpuSuccessFlag] at hg
          | ok gt m dev =>
              refine ⟨d, ct - gt, ?_⟩
              rw [mem_bench_events, hcr, hgr, hdur]
              exact Or.inr (Or.inr (Or.inr (Or.inr
                (practicalImpact_mem_of_both_ok ct n gt m dev d h300))))

/-- The tier print at a concrete world where the CPU run took 10 seconds
and the Metal GPU run took 2 seconds. -/
theorem C6_benchmark_report_witness :
    BenchEvent.tier (tierOf (10 / 2)) (10 / 2) ∈
      (benchmark_diarization
        ⟨some 600, ⟨true, false⟩, "", Except.ok [], 10, Except.ok [], 2⟩).events :=
  (((C6_benchmark_report
      ⟨some 600, ⟨true, false⟩, "", Except.ok [], 10, Except.ok [], 2⟩
      (by norm_num)).2.1) 10 0 2 0 "Metal GPU" rfl rfl).2

/-- C7: the two runs are isolated — a CPU-run exception is recorded as
`results['cpu']` with the error message, a GPU-run exception (when a GPU
was probed) is recorded as `results['gpu']`, each record and each test's
prints depend only on that run's own inputs, and a failing run never
prevents the summary from being produced. -/
theorem C7_runs_isolated (w : BenchWorld) :
    (∀ e, w.cpuRun = Except.error e →
        (benchmark_diarization w).cpu = CpuRecord.failed e) ∧
    (∀ e, w.gpuRun = Except.error e → get_device w.env true ≠ DeviceType.cpu →
        (benchmark_diarization w).gpu = GpuRecord.failed e) ∧
    (∀ w' : BenchWorld, w'.env = w.env → w'.gpuRun = w.gpuRun →
        w'.gpuTime = w.gpuTime →
        (benchmark_diarization w').gpu = (benchmark_diarization w).gpu ∧
        gpuEventsOf w' = gpuEventsOf w) ∧
    (∀ w' : BenchWorld, w'.cpuRun = w.cpuRun → w'.cpuTime = w.cpuTime →
        (benchmark_diarization w').cpu = (benchmark_diarization w).cpu ∧
        cpuEventsOf w' = cpuEventsOf w) ∧
    summaryEvents (cpuRecordOf w) (gpuRecordOf w) w.duration ≠ [] := by
  refine ⟨?_, ?_, ?_, ?_, ?_⟩
  · intro e he
    simp [benchmark_diarization, cpuRecordOf, he, diarize_audio]
  · intro e he hdev
    simp [benchmark_diarization, gpuRecordOf, hdev, he, diarize_audio]
  · intro w' h1 h2 h3
    exact ⟨by simp [benchmark_diarization, gpuRecordOf, h1, h2, h3],
           by simp [gpuEventsOf, h1, h2, h3]⟩
  · intro w' h1 h2
    exact ⟨by simp [benchmark_diarization, cpuRecordOf, h1, h2],
           by simp [cpuEventsOf, h1, h2]⟩
  · cases hcr : cpuRecordOf w with
    | failed e => cases hgr : gpuRecordOf w <;> simp [summaryEvents]
    | ok ct n =>
        cases hgr : gpuRecordOf w with
        | ok gt m dev => simp [summaryEvents]
        | failed e => simp [summaryEvents]
        | skipped r => simp [summaryEvents]

/-- Both runs failing with their own exceptions are recorded per run. -/
theorem C7_runs_isolated_witness :
    (benchmark_diarization
        ⟨none, ⟨true, false⟩, "", Except.error "boom", 0,
         Except.error "gpufail", 0⟩).cpu = CpuRecord.failed "boom" ∧
    (benchmark_diarization
        ⟨none, ⟨true, false⟩, "", Except.error "boom", 0,
         Except.error "gpufail", 0⟩).gpu = GpuRecord.failed "gpufail" :=
  ⟨(C7_runs_isolated _).1 "boom" rfl,
   (C7_runs_isolated _).2.1 "gpufail" rfl (by decide)⟩

/-- C8: when no accelerated device is available and the CPU run succeeds,
the benchmark exits 0, reports the CPU timing in TEST 1 and in the
summary, states that the GPU test was skipped, and never reports a GPU
timing. -/
theorem C8_gpu_unavailable (bw : BenchMainWorld)
    (hlen : 2 ≤ bw.argv.length)
    (hfile : bw.fileExists (argvPath bw.argv) = true)
    (htok : pyTruthy bw.envToken = true)
    (hdev : get_device bw.world.env true = DeviceType.cpu)
    (tracks : List Track) (hcpu : bw.world.cpuRun = Except.ok tracks) :
    (benchmark_main bw).exitCode = 0 ∧
    (benchmark_main bw).events = (benchmark_diarization bw.world).events ∧
    BenchEvent.cpuTestOk bw.world.cpuTime tracks.length ∈ (benchmark_main bw).events ∧
    BenchEvent.gpuSkipped ∈ (benchmark_main bw).events ∧
    BenchEvent.summaryCpuOnly bw.world.cpuTime ∈ (benchmark_main bw).events ∧
    (∀ t n d, BenchEvent.gpuTestOk t n d ∉ (benchmark_main bw).events) ∧
    (∀ ct gt s ts d, BenchEvent.summaryBoth ct gt s ts d ∉ (benchmark_main bw).events) := by
  have h1' : ¬ bw.argv.length < 2 := by omega
  have hcr : diarize_audio bw.world.cpuRun =
      Except.ok { segments := tracks.map trackSegment } := by
    rw [hcpu]
    simp [diarize_audio, foldl_append_singleton]
  have hexit : (benchmark_main bw).exitCode = 0 := by
    simp [benchmark_main, h1', hfile, htok]
  have hmain : (benchmark_main bw).events = (benchmark_diarization bw.world).events := by
    simp [benchmark_main, h1', hfile, htok]
  have hev : (benchmark_diarization bw.world).events =
      [BenchEvent.audioDuration bw.world.duration,
       BenchEvent.availableDevices
         (devicesAvailable bw.world.env bw.world.cudaName),
       BenchEvent.cpuTestOk bw.world.cpuTime tracks.length,
       BenchEvent.gpuSkipped,
       BenchEvent.summaryCpuOnly bw.world.cpuTime] := by
    simp [benchmark_diarization, cpuEventsOf, gpuEventsOf, cpuRecordOf,
          gpuRecordOf, hcr, hdev, summaryEvents]
  refine ⟨hexit, hmain, ?_, ?_, ?_, ?_, ?_⟩ <;> rw [hmain, hev]
  · simp
  · simp
  · simp
  · intro t n d
    simp
  · intro ct gt s ts d
    simp

/-- The GPU-unavailable benchmark at a concrete world: no MPS, no CUDA,
CPU run succeeding in 7 seconds. -/
theorem C8_gpu_unavailable_witness :
    (benchmark_main
        ⟨["bench", "a.wav"], fun _ => true, some "hf",
         ⟨some 60, ⟨false, false⟩, "", Except.ok [], 7, Except.ok [], 1⟩⟩).exitCode = 0 ∧
    BenchEvent.gpuSkipped ∈
      (benchmark_main
        ⟨["bench", "a.wav"], fun _ => true, some "hf",
         ⟨some 60, ⟨false, false⟩, "", Except.ok [], 7, Except.ok [], 1⟩⟩).events ∧
    BenchEvent.summaryCpuOnly 7 ∈
      (benchmark_main
        ⟨["bench", "a.wav"], fun _ => true, some "hf",
         ⟨some 60, ⟨false, false⟩, "", Except.ok [], 7, Except.ok [], 1⟩⟩).events :=
  by
  have h := C8_gpu_unavailable
    ⟨["bench", "a.wav"], fun _ => true, some "hf",
     ⟨some 60, ⟨false, false⟩, "", Except.ok [], 7, Except.ok [], 1⟩⟩
    (by norm_num) rfl rfl rfl [] rfl
  exact ⟨h.1, h.2.2.2.1, h.2.2.2.2.1⟩

/-- C9: in the summary, a failed CPU run always yields the
overall-failure line regardless of the GPU outcome; the summary's
paired report requires both runs to have succeeded, and its standalone
timing line exists only for a successful CPU run (never for a successful
GPU run on its own). -/
theorem C9_summary_cpu_gate (cpu : CpuRecord) (gpu : GpuRecord) (dur : Option ℚ) :
    (∀ e, cpu = CpuRecord.failed e →
        summaryEvents cpu gpu dur = [BenchEvent.summaryFailed]) ∧
    (gpuSuccessFlag gpu = true → cpuSuccessFlag cpu = false →
        summaryEvents cpu gpu dur = [BenchEvent.summaryFailed]) ∧
    (∀ ct gt s ts dev,
        BenchEvent.summaryBoth ct gt s ts dev ∈ summaryEvents cpu gpu dur →
        cpuSuccessFlag cpu = true ∧ gpuSuccessFlag gpu = true) ∧
    (∀ t, BenchEvent.summaryCpuOnly t ∈ summaryEvents cpu gpu dur →
        cpuSuccessFlag cpu = true ∧ gpuSuccessFlag gpu = false) := by
  refine ⟨?_, ?_, ?_, ?_⟩
  · intro e he
    subst he
    cases gpu <;> simp [summaryEvents]
  · intro hg hc
    cases cpu with
    | ok ct n => simp [cpuSuccessFlag] at hc
    | failed e => cases gpu <;> simp [summaryEvents]
  · intro ct gt s ts dev h
    cases cpu with
    | failed e => cases gpu <;> simp [summaryEvents] at h
    | ok ct' n =>
        cases gpu with
        | ok gt' m dev' => exact ⟨rfl, rfl⟩
        | failed e => simp [summaryEvents] at h
        | skipped r => simp [summaryEvents] at h
  · intro t h
    cases cpu with
    | failed e => cases gpu <;> simp [summaryEvents] at h
    | ok ct n =>
        cases gpu with
        | failed e => exact ⟨rfl, rfl⟩
        | skipped r => exact ⟨rfl, rfl⟩
        | ok gt m dev =>
            rcases dur with _ | d
            · simp [summaryEvents] at h
            · by_cases hcnd : (d : ℚ) ≠ 0 ∧ 300 ≤ d
              · simp [summaryEvents, hcnd] at h
              · simp [summaryEvents, hcnd] at h

/-- The summary gate at concrete records: failed CPU with successful GPU
prints only the overall-failure line; a standalone timing line comes from
a successful CPU run with the GPU skipped. -/
theorem C9_summary_cpu_gate_witness :
    summaryEvents (CpuRecord.failed "x") (GpuRecord.ok 1 2 "Metal GPU") none =
      [BenchEvent.summaryFailed] ∧
    (cpuSuccessFlag (CpuRecord.ok 3 4) = true ∧
     gpuSuccessFlag (GpuRecord.skipped "No GPU available") = false) :=
  ⟨(C9_summary_cpu_gate (CpuRecord.failed "x")
      (GpuRecord.ok 1 2 "Metal GPU") none).1 "x" rfl,
   (C9_summary_cpu_gate (CpuRecord.ok 3 4)
      (GpuRecord.skipped "No GPU available") none).2.2.2 3
     (by simp [summaryEvents])⟩

end MeetingAgent
